import Mathlib

/-!
# virt_wifi: the simulated wireless adapter of `drivers/staging/android/virt_wifi.c`

A shallow embedding of the driver's control-plane state machine
(`virt_wifi_scan`, `virt_wifi_connect`, `virt_wifi_disconnect`, the four
delayed-work callbacks, the station queries), of the two packet gates
(`virt_wifi_start_xmit`, `virt_wifi_rx_handler`) and of the drain sequence of
`free_netdev_and_wiphy`.

Conventions of the embedding:

* `struct virt_wifi_priv` is a Lean structure; every driver function takes the
  state and returns the new state, its C return value (when it has one) and
  the list of calls it made into the host kernel, in program order.
* pointers are tokens (`Nat`), a nullable pointer is an `Option`;
* `u16` and `u64` values (the disconnect reason, the boot clock) are carried
  as naturals: the driver stores and forwards them and computes nothing on
  them;
* the scheduler is sequential: a deferred action runs to completion when it
  fires, and a flush runs an outstanding action on the spot;
* `wiphy_debug` / `dev_err` logging is left out.
-/

namespace VirtWifi

/-! ## Host-side constants and types (declared in kernel headers) -/

/-- Modelled from the spec: the errno constant behind the `Busy` result; the
header that declares it is not part of the driver file. -/
def EBUSY : Int := 16

/-- Modelled from the spec: the errno constant behind `InvalidArgument`; the
header that declares it is not part of the driver file. -/
def EINVAL : Int := 22

/-- Modelled from the spec: the errno constant behind `NotFound`; the header
that declares it is not part of the driver file. -/
def ENOENT : Int := 2

/-- Modelled from the spec: the "device busy" transmit status handed back to
the caller of the outbound gate (`netdev_tx_t` is declared in a kernel
header). -/
def NETDEV_TX_BUSY : Int := 16

/-- Modelled from the spec: the delivery classification "addressed to this
host" written by the inbound gate (declared in a kernel header). -/
def PACKET_HOST : Nat := 0

/-- Modelled from the spec: the information-element tag of a network name
(declared in a kernel header). -/
def WLAN_EID_SSID : Nat := 0

/-- Modelled from the spec: the "infrastructure network" capability bit
(declared in a kernel header). -/
def WLAN_CAPABILITY_ESS : Nat := 1

/-- Modelled from the spec: the 20 MHz scan width tag (declared in a kernel
header). -/
def NL80211_BSS_CHAN_WIDTH_20 : Nat := 0

/-- An Ethernet address, as the 48-bit number its six bytes spell. -/
abbrev mac_addr := Nat

/-- Modelled from the spec: identity comparison of two peer identities
(`ether_addr_equal` lives in a kernel header). -/
def ether_addr_equal (a b : mac_addr) : Bool := a == b

/-- Values fixed before any driver entry point runs: the tick rate `HZ` of
the kernel build and `fake_router_bssid`, drawn once at module init. -/
structure module_env where
  HZ : Nat
  fake_router_bssid : mac_addr
deriving DecidableEq, Repr

/-- The framing under which a discovered network is reported. -/
inductive cfg80211_bss_frame_type where
  | CFG80211_BSS_FTYPE_UNKNOWN
  | CFG80211_BSS_FTYPE_BEACON
  | CFG80211_BSS_FTYPE_PRESP
deriving DecidableEq, Repr

/-- Verdict of a receive interceptor (`rx_handler_result_t`). -/
inductive rx_handler_result where
  | RX_HANDLER_CONSUMED
  | RX_HANDLER_ANOTHER
  | RX_HANDLER_EXACT
  | RX_HANDLER_PASS
deriving DecidableEq, Repr

/-- The four delayed-work slots of `struct virt_wifi_priv`. -/
inductive work_kind where
  | scan_result
  | scan_complete
  | connect
  | disconnect
deriving DecidableEq, Repr

/-- `struct ieee80211_channel`, the fields the driver initialises. -/
structure ieee80211_channel where
  center_freq : Nat
  hw_value : Nat
  max_power : Nat
deriving DecidableEq, Repr

/-- The single 5 GHz channel of the capability tables. -/
def channel_5ghz : ieee80211_channel :=
  { center_freq := 5240, hw_value := 5240, max_power := 20 }

/-- The statistics attributes `virt_wifi_get_station` marks as filled. -/
inductive nl80211_sta_info where
  | NL80211_STA_INFO_TX_PACKETS
  | NL80211_STA_INFO_TX_FAILED
  | NL80211_STA_INFO_SIGNAL
  | NL80211_STA_INFO_TX_BITRATE
deriving DecidableEq, Repr

/-- `struct rate_info`. -/
structure rate_info where
  flags : Nat
  mcs : Nat
  legacy : Nat
  nss : Nat
  bw : Nat
deriving DecidableEq, Repr

/-- `struct station_info`, the fields `virt_wifi_get_station` writes;
`filled` lists the attributes whose bit is set. -/
structure station_info where
  filled : List nl80211_sta_info
  tx_packets : Nat
  tx_failed : Nat
  signal : Int
  txrate : rate_info
deriving DecidableEq, Repr

/-- A call the driver makes into the host kernel, with its arguments. For
`schedule_delayed_work` the last field records the value the call
returned. -/
inductive host_call where
  | schedule_delayed_work (w : work_kind) (delay : Nat) (queued : Bool)
  | cfg80211_inform_bss_data (chan : ieee80211_channel) (scan_width : Nat)
      (signal : Int) (boottime_ns : Nat) (ftype : cfg80211_bss_frame_type)
      (bssid : mac_addr) (tsf : Nat) (capability : Nat) (beacon_interval : Nat)
      (ie : List Nat)
  | cfg80211_put_bss
  | cfg80211_scan_done (request : Option Nat) (aborted : Bool)
  | cfg80211_connect_result (netdev : Nat) (bssid : mac_addr) (status : Nat)
  | cfg80211_disconnected (netdev : Nat) (reason : Nat) (locally_generated : Bool)
  | flush_work_register_wiphy
  | wiphy_unregister
  | wiphy_free
  | kfree_wdev
  | free_netdev
deriving DecidableEq, Repr

/-! ## The deferred-action scheduler -/

/-- A `struct delayed_work` slot: whether an instance of it is outstanding. -/
structure delayed_work where
  pending : Bool
deriving DecidableEq, Repr

/-- Modelled from the spec: the host scheduler's `schedule` for one slot
(the workqueue code is not part of the driver file). A slot holds a single
outstanding instance: scheduling an idle slot queues it and reports `true`,
scheduling a slot that is already outstanding changes nothing and reports
`false`. The delay only fixes when the action fires and is not stored. -/
def schedule_delayed_work (w : delayed_work) (_delay : Nat) : Bool × delayed_work :=
  if w.pending then (false, w) else (true, { pending := true })

/-! ## Adapter state -/

/-- `struct virt_wifi_priv`. -/
structure virt_wifi_priv where
  being_deleted : Bool
  is_connected : Bool
  netdev : Nat
  scan_request : Option Nat
  scan_result : delayed_work
  scan_complete : delayed_work
  connect : delayed_work
  disconnect : delayed_work
  disconnect_reason : Nat
deriving DecidableEq, Repr

/-- The state `virt_wireless_dev` leaves in a fresh `virt_wifi_priv`
(`disconnect_reason` is zero because `wiphy_new` hands out zeroed memory). -/
def virt_wireless_dev (netdev : Nat) : virt_wifi_priv :=
  { being_deleted := false
    is_connected := false
    netdev := netdev
    scan_request := none
    scan_result := { pending := false }
    scan_complete := { pending := false }
    connect := { pending := false }
    disconnect := { pending := false }
    disconnect_reason := 0 }

/-- The set of outstanding deferred actions, slot by slot. -/
def outstanding (priv : virt_wifi_priv) : work_kind → Bool
  | .scan_result => priv.scan_result.pending
  | .scan_complete => priv.scan_complete.pending
  | .connect => priv.connect.pending
  | .disconnect => priv.disconnect.pending

/-- No deferred action of any kind is outstanding. -/
def quiescent (priv : virt_wifi_priv) : Bool :=
  !priv.scan_result.pending && !priv.scan_complete.pending &&
    !priv.connect.pending && !priv.disconnect.pending

/-! ## Control requests -/

/-- `virt_wifi_scan`: the request is the token of a `cfg80211_scan_request`
the host allocated. -/
def virt_wifi_scan (env : module_env) (priv : virt_wifi_priv) (request : Nat) :
    Int × virt_wifi_priv × List host_call :=
  if priv.scan_request.isSome || priv.being_deleted then
    (-EBUSY, priv, [])
  else
    let priv1 := { priv with scan_request := some request }
    let r := schedule_delayed_work priv1.scan_result (env.HZ * 2)
    (0, { priv1 with scan_result := r.2 },
      [.schedule_delayed_work .scan_result (env.HZ * 2) r.1])

/-- `virt_wifi_connect`: `bssid` is `sme->bssid`, absent when the caller names
no peer. -/
def virt_wifi_connect (env : module_env) (priv : virt_wifi_priv)
    (bssid : Option mac_addr) : Int × virt_wifi_priv × List host_call :=
  if priv.being_deleted then
    (-EBUSY, priv, [])
  else if (match bssid with
      | some b => !ether_addr_equal b env.fake_router_bssid
      | none => false) then
    (-EINVAL, priv, [])
  else
    let r := schedule_delayed_work priv.connect (env.HZ * 2)
    let could_schedule := r.1
    ((if could_schedule then 0 else -EBUSY), { priv with connect := r.2 },
      [.schedule_delayed_work .connect (env.HZ * 2) could_schedule])

/-- `virt_wifi_disconnect`. -/
def virt_wifi_disconnect (env : module_env) (priv : virt_wifi_priv)
    (reason_code : Nat) : Int × virt_wifi_priv × List host_call :=
  if priv.being_deleted then
    (-EBUSY, priv, [])
  else
    let r := schedule_delayed_work priv.disconnect (env.HZ * 2)
    let could_schedule := r.1
    let priv1 := { priv with disconnect := r.2 }
    if !could_schedule then
      (-EBUSY, priv1, [.schedule_delayed_work .disconnect (env.HZ * 2) could_schedule])
    else
      (0, { priv1 with disconnect_reason := reason_code },
        [.schedule_delayed_work .disconnect (env.HZ * 2) could_schedule])

/-! ## Deferred actions -/

/-- The array `char ssid[] = "__AndroidWifi"` as initialised: thirteen
characters and the terminator. -/
def ssid_init : List Nat :=
  [95, 95, 65, 110, 100, 114, 111, 105, 100, 87, 105, 102, 105, 0]

/-- The information element `virt_wifi_scan_result` hands to the host: `ssid`
with byte 0 overwritten by the tag and byte 1 by `sizeof(ssid) - 3`, cut
before the terminator (`sizeof(ssid) - 1` bytes). -/
def ssid_ie : List Nat :=
  ((ssid_init.set 0 WLAN_EID_SSID).set 1 (ssid_init.length - 3)).take (ssid_init.length - 1)

/-- `virt_wifi_scan_result`; `now` is what `ktime_get_boot_ns` returns. -/
def virt_wifi_scan_result (env : module_env) (now : Nat) (priv : virt_wifi_priv) :
    virt_wifi_priv × List host_call :=
  let r := schedule_delayed_work priv.scan_complete (env.HZ * 2)
  ({ priv with scan_complete := r.2 },
    [.cfg80211_inform_bss_data channel_5ghz NL80211_BSS_CHAN_WIDTH_20 (-60) now
        .CFG80211_BSS_FTYPE_PRESP env.fake_router_bssid now WLAN_CAPABILITY_ESS 0 ssid_ie,
     .cfg80211_put_bss,
     .cfg80211_inform_bss_data channel_5ghz NL80211_BSS_CHAN_WIDTH_20 (-60) now
        .CFG80211_BSS_FTYPE_BEACON env.fake_router_bssid now WLAN_CAPABILITY_ESS 0 ssid_ie,
     .cfg80211_put_bss,
     .schedule_delayed_work .scan_complete (env.HZ * 2) r.1])

/-- `virt_wifi_scan_complete`: `scan_info` is zero-initialised, so the scan is
reported as not aborted. -/
def virt_wifi_scan_complete (priv : virt_wifi_priv) : virt_wifi_priv × List host_call :=
  ({ priv with scan_request := none }, [.cfg80211_scan_done priv.scan_request false])

/-- `virt_wifi_connect_complete`: status 0 is success. -/
def virt_wifi_connect_complete (env : module_env) (priv : virt_wifi_priv) :
    virt_wifi_priv × List host_call :=
  ({ priv with is_connected := true },
    [.cfg80211_connect_result priv.netdev env.fake_router_bssid 0])

/-- `virt_wifi_disconnect_complete`. -/
def virt_wifi_disconnect_complete (priv : virt_wifi_priv) :
    virt_wifi_priv × List host_call :=
  ({ priv with is_connected := false },
    [.cfg80211_disconnected priv.netdev priv.disconnect_reason true])

/-- The callback `INIT_DELAYED_WORK` binds to each slot in
`virt_wireless_dev`. -/
def work_func (env : module_env) (now : Nat) : work_kind → virt_wifi_priv →
    virt_wifi_priv × List host_call
  | .scan_result => virt_wifi_scan_result env now
  | .scan_complete => virt_wifi_scan_complete
  | .connect => virt_wifi_connect_complete env
  | .disconnect => virt_wifi_disconnect_complete

/-- Marks slot `k` as no longer outstanding. -/
def clear_pending (k : work_kind) (priv : virt_wifi_priv) : virt_wifi_priv :=
  match k with
  | .scan_result => { priv with scan_result := { pending := false } }
  | .scan_complete => { priv with scan_complete := { pending := false } }
  | .connect => { priv with connect := { pending := false } }
  | .disconnect => { priv with disconnect := { pending := false } }

/-- Modelled from the spec: a deferred action firing (the workqueue code is
not part of the driver file). Only an outstanding slot can fire; the slot
stops being outstanding and then its callback runs. -/
def run_delayed_work (env : module_env) (now : Nat) (k : work_kind) (priv : virt_wifi_priv) :
    Option (virt_wifi_priv × List host_call) :=
  if outstanding priv k then some (work_func env now k (clear_pending k priv)) else none

/-- Modelled from the spec: the host scheduler's `await_drain` for one slot
(`flush_delayed_work`, not part of the driver file): an outstanding action is
run to completion now, an idle slot is left alone. -/
def flush_delayed_work (env : module_env) (now : Nat) (k : work_kind)
    (priv : virt_wifi_priv) : virt_wifi_priv × List host_call :=
  match run_delayed_work env now k priv with
  | some r => r
  | none => (priv, [])

/-! ## Station queries -/

/-- `virt_wifi_get_station`: `mac` is the peer identity asked about. -/
def virt_wifi_get_station (_mac : mac_addr) (sinfo : station_info) : Int × station_info :=
  (0, { sinfo with
          filled := [.NL80211_STA_INFO_TX_PACKETS, .NL80211_STA_INFO_TX_FAILED,
                     .NL80211_STA_INFO_SIGNAL, .NL80211_STA_INFO_TX_BITRATE]
          tx_packets := 1
          tx_failed := 0
          signal := -60
          txrate := { flags := 0, mcs := 0, legacy := 10, nss := 0, bw := 0 } })

/-- `virt_wifi_dump_station`: returns the status, the contents of the `mac`
out-buffer and the statistics. -/
def virt_wifi_dump_station (env : module_env) (idx : Int) (mac : mac_addr)
    (sinfo : station_info) : Int × mac_addr × station_info :=
  if idx != 0 then
    (-ENOENT, mac, sinfo)
  else
    let r := virt_wifi_get_station env.fake_router_bssid sinfo
    (r.1, env.fake_router_bssid, r.2)

/-! ## Packet gates -/

/-- `struct sk_buff`: the interface the packet is attributed to, its delivery
classification, the reference count and everything else it carries. -/
structure sk_buff where
  dev : Nat
  pkt_type : Nat
  users : Nat
  data : List Nat
deriving DecidableEq, Repr

/-- `virt_wifi_start_xmit`. `dev_queue_xmit` is the transmit path of the
underlying interface and `lowerdev` the underlying interface. Returns the
status, the packet as the gate leaves it and the packets handed to
`dev_queue_xmit`, in order. -/
def virt_wifi_start_xmit (dev_queue_xmit : sk_buff → Int) (lowerdev : Nat)
    (w_priv : virt_wifi_priv) (skb : sk_buff) : Int × sk_buff × List sk_buff :=
  if !w_priv.is_connected then
    (NETDEV_TX_BUSY, skb, [])
  else
    let skb1 := { skb with dev := lowerdev }
    (dev_queue_xmit skb1, skb1, [skb1])

/-- Modelled from the spec: a buffer is shared when it has more than the one
reference of its holder (`skb_shared` lives in a kernel header). -/
def skb_shared (b : sk_buff) : Bool := b.users != 1

/-- Modelled from the spec: the "privatize if shared" step (`skb_share_check`
lives in a kernel header). Buffers live in `mem`, a pointer is an index into
it. An unshared buffer is returned as it is. For a shared one the caller's
reference is given up and, when the allocation succeeds (`alloc_ok`), an
exclusively owned copy at a fresh address is returned; when it fails the
result is the null pointer. A pointer outside `mem` is reported as null. -/
def skb_share_check (mem : List sk_buff) (skb : Nat) (alloc_ok : Bool) :
    List sk_buff × Option Nat :=
  match mem[skb]? with
  | none => (mem, none)
  | some b =>
    if skb_shared b then
      let mem1 := mem.set skb { b with users := b.users - 1 }
      if alloc_ok then (mem1 ++ [{ b with users := 1 }], some mem.length)
      else (mem1, none)
    else (mem, some skb)

/-- `virt_wifi_rx_handler`. `upperdev` is the virtual interface, `pskb` the
value of `*pskb` on entry; returns the verdict, the buffers and the value of
`*pskb` on exit. The two field writes go to the buffer `skb_share_check`
returned (a pointer outside the store has no buffer to write to). -/
def virt_wifi_rx_handler (upperdev : Nat) (w_priv : virt_wifi_priv) (alloc_ok : Bool)
    (mem : List sk_buff) (pskb : Nat) : rx_handler_result × List sk_buff × Nat :=
  if !w_priv.is_connected then
    (.RX_HANDLER_PASS, mem, pskb)
  else
    match skb_share_check mem pskb alloc_ok with
    | (mem1, none) => (.RX_HANDLER_CONSUMED, mem1, pskb)
    | (mem1, some skb) =>
      match mem1[skb]? with
      | none => (.RX_HANDLER_ANOTHER, mem1, skb)
      | some b =>
        (.RX_HANDLER_ANOTHER, mem1.set skb { b with dev := upperdev, pkt_type := PACKET_HOST }, skb)

/-! ## Teardown -/

/-- What `free_netdev_and_wiphy` finds in `dev->ieee80211_ptr`: nothing, an
error pointer, or the wireless device with its adapter state and the
`registered` flag of its wiphy. -/
inductive wdev_ptr where
  | null
  | err (e : Int)
  | valid (w_priv : virt_wifi_priv) (registered : Bool)
deriving DecidableEq, Repr

/-- `free_netdev_and_wiphy`. The registration work item belongs to the
net-device private data and never touches `virt_wifi_priv`, so its flush is
only recorded as a host call. Returns the adapter state as it is when handed
to `wiphy_free` (if there is one) and the host calls made, in order. -/
def free_netdev_and_wiphy (env : module_env) (now : Nat) (ieee80211_ptr : wdev_ptr) :
    Option virt_wifi_priv × List host_call :=
  match ieee80211_ptr with
  | .valid w_priv registered =>
    let p0 := { w_priv with being_deleted := true }
    let r1 := flush_delayed_work env now .scan_result p0
    let r2 := flush_delayed_work env now .scan_complete r1.1
    let r3 := flush_delayed_work env now .connect r2.1
    let r4 := flush_delayed_work env now .disconnect r3.1
    (some r4.1,
      [.flush_work_register_wiphy] ++ r1.2 ++ r2.2 ++ r3.2 ++ r4.2 ++
        (if registered then [.wiphy_unregister] else []) ++
        [.wiphy_free, .kfree_wdev, .free_netdev])
  | _ => (none, [.flush_work_register_wiphy, .free_netdev])

/-! ## The adapter as a transition system -/

/-- One step of the adapter in service: a control request or a deferred
action firing (`now` is the boot clock the scan-result action reads).
Teardown is `free_netdev_and_wiphy`, which runs once, after these. -/
inductive step where
  | scan (request : Nat)
  | connect (bssid : Option mac_addr)
  | disconnect (reason_code : Nat)
  | fire (k : work_kind) (now : Nat)
deriving DecidableEq, Repr

/-- The state and host calls a step produces; a slot that is not outstanding
cannot fire. -/
def step.apply (env : module_env) (priv : virt_wifi_priv) :
    step → Option (virt_wifi_priv × List host_call)
  | .scan request => some (virt_wifi_scan env priv request).2
  | .connect bssid => some (virt_wifi_connect env priv bssid).2
  | .disconnect reason_code => some (virt_wifi_disconnect env priv reason_code).2
  | .fire k now => run_delayed_work env now k priv

/-- A call that queued a deferred action. -/
def host_call.queues : host_call → Bool
  | .schedule_delayed_work _ _ queued => queued
  | _ => false

/-- Runs a sequence of steps, collecting the host calls; undefined as soon as
a step asks a slot to fire that is not outstanding. -/
def run_steps (env : module_env) : virt_wifi_priv → List step →
    Option (virt_wifi_priv × List host_call)
  | priv, [] => some (priv, [])
  | priv, st :: rest =>
    match step.apply env priv st with
    | none => none
    | some r1 =>
      match run_steps env r1.1 rest with
      | none => none
      | some r2 => some (r2.1, r1.2 ++ r2.2)

/-- The call an accepted scan request makes: arming the scan-result slot. -/
def host_call.arms_scan_result : host_call → Bool
  | .schedule_delayed_work .scan_result _ _ => true
  | _ => false

/-- A report of a discovered network under the given framing. -/
def host_call.reports_bss (t : cfg80211_bss_frame_type) : host_call → Bool
  | .cfg80211_inform_bss_data _ _ _ _ ftype _ _ _ _ _ => ftype == t
  | _ => false

/-- A scan-completion report. -/
def host_call.reports_scan_done : host_call → Bool
  | .cfg80211_scan_done _ _ => true
  | _ => false

/-- The stored scan request and the two scan slots agree: a request is stored
exactly when one of the two scan actions is outstanding, and never both. -/
def scan_consistent (priv : virt_wifi_priv) : Bool :=
  (priv.scan_request.isSome == (priv.scan_result.pending || priv.scan_complete.pending)) &&
    !(priv.scan_result.pending && priv.scan_complete.pending)

/-! ## Concrete inputs used by the closed statements below -/

/-- A sample module environment: 100 ticks per second, peer identity 2. -/
def env0 : module_env := { HZ := 100, fake_router_bssid := 2 }

/-- A fresh adapter on net device 7. -/
def fresh : virt_wifi_priv := virt_wireless_dev 7

/-- A fresh adapter with a connect completion outstanding. -/
def connecting : virt_wifi_priv := { fresh with connect := { pending := true } }

/-- A packet attributed to interface 1, held by one owner. -/
def pkt0 : sk_buff := { dev := 1, pkt_type := 3, users := 1, data := [10, 20] }

/-- A packet attributed to interface 1 that a second consumer also holds. -/
def pkt_shared : sk_buff := { dev := 1, pkt_type := 3, users := 2, data := [10, 20] }

/-- The adapter after an accepted scan request, at the moment
`free_netdev_and_wiphy` has set `being_deleted`. -/
def tearing_down_after_scan : virt_wifi_priv :=
  { (virt_wifi_scan env0 fresh 5).2.1 with being_deleted := true }

/-- The host calls of the scan-result action firing at clock reading 1000
under `env0`, scan-complete not being outstanding. -/
def scan_result_calls : List host_call :=
  [.cfg80211_inform_bss_data channel_5ghz NL80211_BSS_CHAN_WIDTH_20 (-60) 1000
      .CFG80211_BSS_FTYPE_PRESP 2 1000 WLAN_CAPABILITY_ESS 0 ssid_ie,
   .cfg80211_put_bss,
   .cfg80211_inform_bss_data channel_5ghz NL80211_BSS_CHAN_WIDTH_20 (-60) 1000
      .CFG80211_BSS_FTYPE_BEACON 2 1000 WLAN_CAPABILITY_ESS 0 ssid_ie,
   .cfg80211_put_bss,
   .schedule_delayed_work .scan_complete 200 true]

/-- A fresh adapter after an accepted disconnect request with reason 3. -/
def disconnecting : virt_wifi_priv := (virt_wifi_disconnect env0 fresh 3).2.1

/-- An empty statistics record. -/
def sinfo0 : station_info :=
  { filled := [], tx_packets := 0, tx_failed := 0, signal := 0,
    txrate := { flags := 0, mcs := 0, legacy := 0, nss := 0, bw := 0 } }

/-! ## Frame lemmas -/

/-- A scan request never touches the connection flag. -/
theorem scan_keeps_is_connected (env : module_env) (priv : virt_wifi_priv) (request : Nat) :
    (virt_wifi_scan env priv request).2.1.is_connected = priv.is_connected := by
  unfold virt_wifi_scan
  split <;> rfl

/-- A connect request never touches the connection flag. -/
theorem connect_keeps_is_connected (env : module_env) (priv : virt_wifi_priv)
    (bssid : Option mac_addr) :
    (virt_wifi_connect env priv bssid).2.1.is_connected = priv.is_connected := by
  unfold virt_wifi_connect
  split
  · rfl
  · split <;> rfl

/-- A disconnect request never touches the connection flag. -/
theorem disconnect_keeps_is_connected (env : module_env) (priv : virt_wifi_priv)
    (reason_code : Nat) :
    (virt_wifi_disconnect env priv reason_code).2.1.is_connected = priv.is_connected := by
  obtain ⟨bd, ic, nd, sr, w1, w2, w3, ⟨p4⟩, dr⟩ := priv
  cases bd <;> cases p4 <;> simp [virt_wifi_disconnect, schedule_delayed_work]

/-- What a firing slot produces, spelled out. -/
theorem run_delayed_work_eq (env : module_env) (now : Nat) (k : work_kind)
    (priv priv1 : virt_wifi_priv) (calls : List host_call)
    (h : run_delayed_work env now k priv = some (priv1, calls)) :
    outstanding priv k = true ∧
    priv1 = (work_func env now k (clear_pending k priv)).1 ∧
    calls = (work_func env now k (clear_pending k priv)).2 := by
  unfold run_delayed_work at h
  split at h
  · rename_i hp
    simp only [Option.some.injEq] at h
    refine ⟨hp, ?_, ?_⟩ <;> rw [h]
  · simp at h

/-! ## Control requests: accept and reject -/

/-- C1: `virt_wifi_scan` returns `-EBUSY` exactly when a scan request is
already stored or teardown is underway; in every other state it returns 0,
the new state is the old one with the given request stored and the
scan-result slot outstanding, and its only host call is the
`schedule_delayed_work` on the scan-result slot; a rejected request changes
nothing and makes no host call. -/
theorem virt_wifi_scan_busy_iff (env : module_env) (priv : virt_wifi_priv) (request : Nat) :
    ((virt_wifi_scan env priv request).1 = -EBUSY ↔
      (priv.scan_request ≠ none ∨ priv.being_deleted = true)) ∧
    (¬ (priv.scan_request ≠ none ∨ priv.being_deleted = true) →
      (virt_wifi_scan env priv request).1 = 0 ∧
      (virt_wifi_scan env priv request).2.1 =
        { priv with scan_request := some request, scan_result := { pending := true } } ∧
      (virt_wifi_scan env priv request).2.2 =
        [.schedule_delayed_work .scan_result (env.HZ * 2) (!priv.scan_result.pending)]) ∧
    ((priv.scan_request ≠ none ∨ priv.being_deleted = true) →
      (virt_wifi_scan env priv request).2 = (priv, [])) := by
  obtain ⟨bd, ic, nd, sr, ⟨p1⟩, w2, w3, w4, dr⟩ := priv
  cases sr <;> cases bd <;> cases p1 <;>
    simp [virt_wifi_scan, schedule_delayed_work, EBUSY]

/-- C1, at a fresh adapter: the request is accepted and stored. -/
theorem virt_wifi_scan_busy_iff_witness :
    (virt_wifi_scan env0 fresh 5).1 = 0 ∧
    (virt_wifi_scan env0 fresh 5).2.1 =
      { fresh with scan_request := some 5, scan_result := { pending := true } } ∧
    (virt_wifi_scan env0 fresh 5).2.2 =
      [.schedule_delayed_work .scan_result (env0.HZ * 2) (!fresh.scan_result.pending)] :=
  (virt_wifi_scan_busy_iff env0 fresh 5).2.1 (by decide)

/-- C2: `virt_wifi_connect` returns `-EBUSY` when the adapter is tearing down;
otherwise `-EINVAL` when the target names a peer other than
`fake_router_bssid`; otherwise 0 when the connect slot could be queued and
`-EBUSY` when a connect completion is already outstanding. The request never
changes `is_connected`: an accepted request only makes the connect slot
outstanding and a rejected one changes nothing. Among all steps of the
adapter only the connect completion firing turns `is_connected` from false to
true; that action fires exactly when its slot is outstanding, and then emits
the connect result for `fake_router_bssid` and leaves `is_connected` true. -/
theorem virt_wifi_connect_result (env : module_env) (priv : virt_wifi_priv)
    (bssid : Option mac_addr) :
    (virt_wifi_connect env priv bssid).1 =
      (if priv.being_deleted = true then -EBUSY
       else if bssid ≠ none ∧ bssid ≠ some env.fake_router_bssid then -EINVAL
       else if priv.connect.pending = true then -EBUSY
       else 0) ∧
    (virt_wifi_connect env priv bssid).2.1.is_connected = priv.is_connected ∧
    (virt_wifi_connect env priv bssid).2.1 =
      (if (virt_wifi_connect env priv bssid).1 = 0 then
        { priv with connect := { pending := true } }
       else priv) ∧
    (∀ (st : step) (priv1 : virt_wifi_priv) (calls : List host_call),
      step.apply env priv st = some (priv1, calls) →
      priv.is_connected = false → priv1.is_connected = true →
      ∃ now, st = .fire .connect now) ∧
    (∀ now : Nat,
      run_delayed_work env now .connect priv =
        (if priv.connect.pending = true then
          some ({ priv with connect := { pending := false }, is_connected := true },
            [.cfg80211_connect_result priv.netdev env.fake_router_bssid 0])
         else none)) := by
  refine ⟨?_, connect_keeps_is_connected env priv bssid, ?_, ?_, ?_⟩
  · obtain ⟨bd, ic, nd, sr, w1, w2, ⟨p3⟩, w4, dr⟩ := priv
    cases bd <;> cases p3 <;> cases bssid <;>
      simp [virt_wifi_connect, schedule_delayed_work, ether_addr_equal]
    all_goals split <;> simp_all
  · obtain ⟨bd, ic, nd, sr, w1, w2, ⟨p3⟩, w4, dr⟩ := priv
    cases bd <;> cases p3 <;> cases bssid <;>
      simp [virt_wifi_connect, schedule_delayed_work, ether_addr_equal, EBUSY, EINVAL]
    all_goals split <;> simp_all
  · intro st priv1 calls h hf ht
    cases st with
    | scan request =>
      simp only [step.apply, Option.some.injEq] at h
      have h1 := scan_keeps_is_connected env priv request
      rw [h] at h1
      simp_all
    | connect b =>
      simp only [step.apply, Option.some.injEq] at h
      have h1 := connect_keeps_is_connected env priv b
      rw [h] at h1
      simp_all
    | disconnect r =>
      simp only [step.apply, Option.some.injEq] at h
      have h1 := disconnect_keeps_is_connected env priv r
      rw [h] at h1
      simp_all
    | fire k now =>
      obtain ⟨-, h1, -⟩ := run_delayed_work_eq env now k priv priv1 calls h
      subst h1
      cases k with
      | connect => exact ⟨now, rfl⟩
      | scan_result => simp [work_func, virt_wifi_scan_result, clear_pending, hf] at ht
      | scan_complete => simp [work_func, virt_wifi_scan_complete, clear_pending, hf] at ht
      | disconnect => simp [work_func, virt_wifi_disconnect_complete, clear_pending] at ht
  · intro now
    obtain ⟨bd, ic, nd, sr, w1, w2, ⟨p3⟩, w4, dr⟩ := priv
    cases p3 <;>
      simp [run_delayed_work, outstanding, work_func, virt_wifi_connect_complete,
        clear_pending]

/-- C2, at an adapter whose connect completion is outstanding: the step that
turns `is_connected` on is the connect completion firing. -/
theorem virt_wifi_connect_result_witness :
    ∃ now, step.fire .connect 0 = step.fire .connect now :=
  (virt_wifi_connect_result env0 connecting none).2.2.2.1 (.fire .connect 0)
    { fresh with is_connected := true } [.cfg80211_connect_result 7 2 0]
    (by decide) (by decide) (by decide)

/-! ## Packet gates -/

/-- C3: with `is_connected` false `virt_wifi_start_xmit` returns
`NETDEV_TX_BUSY`, hands nothing to the underlying transmit path and leaves the
packet as it was; with `is_connected` true it hands exactly one packet to the
underlying transmit path, namely the given packet with its `dev` field set to
the underlying interface and every other field unchanged, and returns what
that transmit returned. -/
theorem virt_wifi_start_xmit_gate (dev_queue_xmit : sk_buff → Int) (lowerdev : Nat)
    (w_priv : virt_wifi_priv) (skb : sk_buff) :
    (w_priv.is_connected = false →
      virt_wifi_start_xmit dev_queue_xmit lowerdev w_priv skb = (NETDEV_TX_BUSY, skb, [])) ∧
    (w_priv.is_connected = true →
      ∃ sent : sk_buff,
        sent.dev = lowerdev ∧ sent.pkt_type = skb.pkt_type ∧
        sent.users = skb.users ∧ sent.data = skb.data ∧
        virt_wifi_start_xmit dev_queue_xmit lowerdev w_priv skb =
          (dev_queue_xmit sent, sent, [sent])) := by
  constructor
  · intro h
    simp [virt_wifi_start_xmit, h]
  · intro h
    exact ⟨{ skb with dev := lowerdev }, rfl, rfl, rfl, rfl, by simp [virt_wifi_start_xmit, h]⟩

/-- C3, at an unconnected adapter and at a connected one (underlying
interface 4, a transmit path that reports the length of the payload). -/
theorem virt_wifi_start_xmit_gate_witness :
    virt_wifi_start_xmit (fun b => (b.data.length : Int)) 4 fresh pkt0 =
      (NETDEV_TX_BUSY, pkt0, []) ∧
    ∃ sent : sk_buff,
      sent.dev = 4 ∧ sent.pkt_type = pkt0.pkt_type ∧
      sent.users = pkt0.users ∧ sent.data = pkt0.data ∧
      virt_wifi_start_xmit (fun b => (b.data.length : Int)) 4
          { fresh with is_connected := true } pkt0 =
        ((fun b => (b.data.length : Int)) sent, sent, [sent]) :=
  ⟨(virt_wifi_start_xmit_gate (fun b => (b.data.length : Int)) 4 fresh pkt0).1 (by decide),
   (virt_wifi_start_xmit_gate (fun b => (b.data.length : Int)) 4
      { fresh with is_connected := true } pkt0).2 (by decide)⟩

/-- C4: for a packet `b` stored at `pskb`: with `is_connected` false
`virt_wifi_rx_handler` returns `RX_HANDLER_PASS` and leaves the buffers and
`*pskb` as they were. With `is_connected` true the buffer is privatized first:
an unshared buffer is rewritten in place (`dev` to the virtual interface,
`pkt_type` to `PACKET_HOST`) and the verdict is `RX_HANDLER_ANOTHER`; for a
shared buffer whose copy could be made, only the fresh private copy is
rewritten, `*pskb` points to it, the verdict is `RX_HANDLER_ANOTHER` and the
shared original keeps its `dev`, `pkt_type` and payload (it only loses the
reference the caller held); when the copy could not be made the verdict is
`RX_HANDLER_CONSUMED`, `*pskb` is not written and no `dev` or `pkt_type` is
rewritten. -/
theorem virt_wifi_rx_handler_gate (upperdev : Nat) (w_priv : virt_wifi_priv)
    (alloc_ok : Bool) (mem : List sk_buff) (pskb : Nat) (b : sk_buff)
    (hb : mem[pskb]? = some b) :
    (w_priv.is_connected = false →
      virt_wifi_rx_handler upperdev w_priv alloc_ok mem pskb = (.RX_HANDLER_PASS, mem, pskb)) ∧
    (w_priv.is_connected = true → skb_shared b = false →
      virt_wifi_rx_handler upperdev w_priv alloc_ok mem pskb =
        (.RX_HANDLER_ANOTHER,
          mem.set pskb { b with dev := upperdev, pkt_type := PACKET_HOST }, pskb)) ∧
    (w_priv.is_connected = true → skb_shared b = true → alloc_ok = true →
      virt_wifi_rx_handler upperdev w_priv alloc_ok mem pskb =
        (.RX_HANDLER_ANOTHER,
          mem.set pskb { b with users := b.users - 1 } ++
            [{ b with users := 1, dev := upperdev, pkt_type := PACKET_HOST }],
          mem.length)) ∧
    (w_priv.is_connected = true → skb_shared b = true → alloc_ok = false →
      virt_wifi_rx_handler upperdev w_priv alloc_ok mem pskb =
        (.RX_HANDLER_CONSUMED, mem.set pskb { b with users := b.users - 1 }, pskb)) ∧
    (skb_shared b = true →
      ∃ o : sk_buff,
        (virt_wifi_rx_handler upperdev w_priv alloc_ok mem pskb).2.1[pskb]? = some o ∧
        o.dev = b.dev ∧ o.pkt_type = b.pkt_type ∧ o.data = b.data) := by
  have hlt : pskb < mem.length := by
    rcases Nat.lt_or_ge pskb mem.length with h | h
    · exact h
    · rw [List.getElem?_eq_none h] at hb
      cases hb
  have e3 : w_priv.is_connected = true → skb_shared b = true → alloc_ok = true →
      virt_wifi_rx_handler upperdev w_priv alloc_ok mem pskb =
        (.RX_HANDLER_ANOTHER,
          mem.set pskb { b with users := b.users - 1 } ++
            [{ b with users := 1, dev := upperdev, pkt_type := PACKET_HOST }],
          mem.length) := by
    intro h hs ha
    simp [virt_wifi_rx_handler, skb_share_check, h, hb, hs, ha]
  have e4 : w_priv.is_connected = true → skb_shared b = true → alloc_ok = false →
      virt_wifi_rx_handler upperdev w_priv alloc_ok mem pskb =
        (.RX_HANDLER_CONSUMED, mem.set pskb { b with users := b.users - 1 }, pskb) := by
    intro h hs ha
    simp [virt_wifi_rx_handler, skb_share_check, h, hb, hs, ha]
  refine ⟨?_, ?_, e3, e4, ?_⟩
  · intro h
    simp [virt_wifi_rx_handler, h]
  · intro h hs
    simp [virt_wifi_rx_handler, skb_share_check, h, hb, hs]
  · intro hs
    cases hc : w_priv.is_connected
    · exact ⟨b, by simp [virt_wifi_rx_handler, hc, hb], rfl, rfl, rfl⟩
    · by_cases ha : alloc_ok = true
      · refine ⟨{ b with users := b.users - 1 }, ?_, rfl, rfl, rfl⟩
        rw [e3 hc hs ha]
        show (mem.set pskb { b with users := b.users - 1 } ++ _)[pskb]? = _
        rw [List.getElem?_append_left (by simpa using hlt)]
        simp [hlt]
      · refine ⟨{ b with users := b.users - 1 }, ?_, rfl, rfl, rfl⟩
        rw [e4 hc hs (by simpa using ha)]
        simp [hlt]

/-- C4, at a connected adapter (virtual interface 9) receiving a shared
packet: the private copy at the fresh address 1 is rewritten, the original at
address 0 keeps `dev` 1 and `pkt_type` 3. -/
theorem virt_wifi_rx_handler_gate_witness :
    virt_wifi_rx_handler 9 { fresh with is_connected := true } true [pkt_shared] 0 =
      (.RX_HANDLER_ANOTHER,
        [pkt_shared].set 0 { pkt_shared with users := pkt_shared.users - 1 } ++
          [{ pkt_shared with users := 1, dev := 9, pkt_type := PACKET_HOST }],
        [pkt_shared].length) :=
  (virt_wifi_rx_handler_gate 9 { fresh with is_connected := true } true [pkt_shared] 0
    pkt_shared (by decide)).2.2.1 (by decide) (by decide) (by decide)

/-! ## The scan cycle -/

/-- A scan request is accepted exactly when none is stored and the adapter is
not tearing down. -/
theorem scan_accepted_iff (env : module_env) (priv : virt_wifi_priv) (request : Nat) :
    (virt_wifi_scan env priv request).1 = 0 ↔
      (priv.scan_request = none ∧ priv.being_deleted = false) := by
  obtain ⟨bd, ic, nd, sr, ⟨p1⟩, w2, w3, w4, dr⟩ := priv
  cases sr <;> cases bd <;> cases p1 <;>
    simp [virt_wifi_scan, schedule_delayed_work, EBUSY]

/-- One step keeps the scan bookkeeping balanced: arming calls against
probe-response reports, probe-response against beacon reports, and reports
against completions, each corrected by the slot that is outstanding. -/
theorem step_scan_balance (env : module_env) (priv s : virt_wifi_priv) (st : step)
    (calls : List host_call) (hc : scan_consistent priv = true)
    (h : step.apply env priv st = some (s, calls)) :
    scan_consistent s = true ∧
    calls.countP host_call.arms_scan_result + priv.scan_result.pending.toNat =
      calls.countP (host_call.reports_bss .CFG80211_BSS_FTYPE_PRESP) +
        s.scan_result.pending.toNat ∧
    calls.countP (host_call.reports_bss .CFG80211_BSS_FTYPE_PRESP) =
      calls.countP (host_call.reports_bss .CFG80211_BSS_FTYPE_BEACON) ∧
    calls.countP (host_call.reports_bss .CFG80211_BSS_FTYPE_PRESP) +
        priv.scan_complete.pending.toNat =
      calls.countP host_call.reports_scan_done + s.scan_complete.pending.toNat := by
  obtain ⟨bd, ic, nd, sr, ⟨p1⟩, ⟨p2⟩, ⟨p3⟩, ⟨p4⟩, dr⟩ := priv
  cases st with
  | scan request =>
    simp only [step.apply, Option.some.injEq] at h
    have h1 : s = (virt_wifi_scan env ⟨bd, ic, nd, sr, ⟨p1⟩, ⟨p2⟩, ⟨p3⟩, ⟨p4⟩, dr⟩ request).2.1 := by
      rw [h]
    have h2 : calls = (virt_wifi_scan env ⟨bd, ic, nd, sr, ⟨p1⟩, ⟨p2⟩, ⟨p3⟩, ⟨p4⟩, dr⟩ request).2.2 := by
      rw [h]
    subst h1 h2
    cases bd <;> cases sr <;> cases p1 <;> cases p2 <;>
      simp_all [virt_wifi_scan, schedule_delayed_work, scan_consistent,
        host_call.arms_scan_result, host_call.reports_bss, host_call.reports_scan_done]
  | connect b =>
    simp only [step.apply, Option.some.injEq] at h
    have h1 : s = (virt_wifi_connect env ⟨bd, ic, nd, sr, ⟨p1⟩, ⟨p2⟩, ⟨p3⟩, ⟨p4⟩, dr⟩ b).2.1 := by
      rw [h]
    have h2 : calls = (virt_wifi_connect env ⟨bd, ic, nd, sr, ⟨p1⟩, ⟨p2⟩, ⟨p3⟩, ⟨p4⟩, dr⟩ b).2.2 := by
      rw [h]
    subst h1 h2
    unfold virt_wifi_connect
    split
    · simp_all
    · split <;>
        simp_all [scan_consistent, host_call.arms_scan_result, host_call.reports_bss,
          host_call.reports_scan_done]
  | disconnect r =>
    simp only [step.apply, Option.some.injEq] at h
    have h1 : s = (virt_wifi_disconnect env ⟨bd, ic, nd, sr, ⟨p1⟩, ⟨p2⟩, ⟨p3⟩, ⟨p4⟩, dr⟩ r).2.1 := by
      rw [h]
    have h2 : calls = (virt_wifi_disconnect env ⟨bd, ic, nd, sr, ⟨p1⟩, ⟨p2⟩, ⟨p3⟩, ⟨p4⟩, dr⟩ r).2.2 := by
      rw [h]
    subst h1 h2
    cases bd <;> cases p4 <;>
      simp_all [virt_wifi_disconnect, schedule_delayed_work, scan_consistent,
        host_call.arms_scan_result, host_call.reports_bss, host_call.reports_scan_done]
  | fire k now =>
    obtain ⟨hp, h1, h2⟩ := run_delayed_work_eq env now k _ s calls h
    subst h1 h2
    cases k <;> cases sr <;> cases p1 <;> cases p2 <;>
      simp_all [work_func, clear_pending, outstanding, scan_consistent,
        virt_wifi_scan_result, virt_wifi_scan_complete, virt_wifi_connect_complete,
        virt_wifi_disconnect_complete, schedule_delayed_work,
        host_call.arms_scan_result, host_call.reports_bss, host_call.reports_scan_done]

/-- Along any run the scan bookkeeping stays balanced. -/
theorem run_steps_scan_balance (env : module_env) (steps : List step) :
    ∀ (priv s : virt_wifi_priv) (calls : List host_call),
      scan_consistent priv = true → run_steps env priv steps = some (s, calls) →
      scan_consistent s = true ∧
      calls.countP host_call.arms_scan_result + priv.scan_result.pending.toNat =
        calls.countP (host_call.reports_bss .CFG80211_BSS_FTYPE_PRESP) +
          s.scan_result.pending.toNat ∧
      calls.countP (host_call.reports_bss .CFG80211_BSS_FTYPE_PRESP) =
        calls.countP (host_call.reports_bss .CFG80211_BSS_FTYPE_BEACON) ∧
      calls.countP (host_call.reports_bss .CFG80211_BSS_FTYPE_PRESP) +
          priv.scan_complete.pending.toNat =
        calls.countP host_call.reports_scan_done + s.scan_complete.pending.toNat := by
  induction steps with
  | nil =>
    intro priv s calls hc h
    simp only [run_steps, Option.some.injEq, Prod.mk.injEq] at h
    obtain ⟨h1, h2⟩ := h
    subst h1 h2
    simp [hc]
  | cons st rest ih =>
    intro priv s calls hc h
    simp only [run_steps] at h
    cases h1 : step.apply env priv st with
    | none => simp [h1] at h
    | some r1 =>
      obtain ⟨s1, c1⟩ := r1
      simp only [h1] at h
      cases h2 : run_steps env s1 rest with
      | none => simp [h2] at h
      | some r2 =>
        obtain ⟨s2, c2⟩ := r2
        simp only [h2, Option.some.injEq, Prod.mk.injEq] at h
        obtain ⟨e1, e2⟩ := h
        subst e1 e2
        obtain ⟨a1, a2, a3, a4⟩ := step_scan_balance env priv s1 st c1 hc h1
        obtain ⟨b1, b2, b3, b4⟩ := ih s1 s2 c2 a1 h2
        refine ⟨b1, ?_, ?_, ?_⟩
        · simp only [List.countP_append]
          omega
        · simp only [List.countP_append]
          omega
        · simp only [List.countP_append]
          omega

/-- C5: after an accepted `virt_wifi_scan` the scan-result action can fire and
then makes exactly these host calls: the synthetic access point reported as
probe response and as beacon with the same channel, signal, timestamp,
identity, capability and information element, and one
`schedule_delayed_work` on the scan-complete slot. The scan-complete action
can then fire, reports the stored request as done and not aborted, and clears
`scan_request`; afterwards neither scan action is outstanding and a new scan
request is accepted. Moreover, along every run of a fresh adapter, whatever
other requests and completions are interleaved, the number of accepted scan
requests (each makes the one call arming scan-result), of probe-response
reports, of beacon reports and of completion reports differ only by the scan
actions still outstanding, and are all equal whenever no scan request is
stored. -/
theorem scan_cycle_one_pair (env : module_env) (priv : virt_wifi_priv)
    (request now now2 : Nat) :
    ((virt_wifi_scan env priv request).1 = 0 →
      ∃ s2 s3 : virt_wifi_priv,
        run_delayed_work env now .scan_result (virt_wifi_scan env priv request).2.1 =
          some (s2,
            [.cfg80211_inform_bss_data channel_5ghz NL80211_BSS_CHAN_WIDTH_20 (-60) now
                .CFG80211_BSS_FTYPE_PRESP env.fake_router_bssid now WLAN_CAPABILITY_ESS 0
                ssid_ie,
             .cfg80211_put_bss,
             .cfg80211_inform_bss_data channel_5ghz NL80211_BSS_CHAN_WIDTH_20 (-60) now
                .CFG80211_BSS_FTYPE_BEACON env.fake_router_bssid now WLAN_CAPABILITY_ESS 0
                ssid_ie,
             .cfg80211_put_bss,
             .schedule_delayed_work .scan_complete (env.HZ * 2)
                (!priv.scan_complete.pending)]) ∧
        s2.scan_request = some request ∧
        s2.scan_result.pending = false ∧
        s2.scan_complete.pending = true ∧
        run_delayed_work env now2 .scan_complete s2 =
          some (s3, [.cfg80211_scan_done (some request) false]) ∧
        s3.scan_request = none ∧
        s3.scan_result.pending = false ∧
        s3.scan_complete.pending = false ∧
        (∀ request2 : Nat, (virt_wifi_scan env s3 request2).1 = 0)) ∧
    (∀ (netdev : Nat) (steps : List step) (s : virt_wifi_priv) (calls : List host_call),
      run_steps env (virt_wireless_dev netdev) steps = some (s, calls) →
      calls.countP host_call.arms_scan_result =
        calls.countP (host_call.reports_bss .CFG80211_BSS_FTYPE_PRESP) +
          s.scan_result.pending.toNat ∧
      calls.countP (host_call.reports_bss .CFG80211_BSS_FTYPE_PRESP) =
        calls.countP (host_call.reports_bss .CFG80211_BSS_FTYPE_BEACON) ∧
      calls.countP (host_call.reports_bss .CFG80211_BSS_FTYPE_PRESP) =
        calls.countP host_call.reports_scan_done + s.scan_complete.pending.toNat ∧
      (s.scan_request = none →
        calls.countP (host_call.reports_bss .CFG80211_BSS_FTYPE_PRESP) =
          calls.countP host_call.arms_scan_result ∧
        calls.countP (host_call.reports_bss .CFG80211_BSS_FTYPE_BEACON) =
          calls.countP host_call.arms_scan_result ∧
        calls.countP host_call.reports_scan_done =
          calls.countP host_call.arms_scan_result)) := by
  constructor
  · intro h
    obtain ⟨hr, hd⟩ := (scan_accepted_iff env priv request).1 h
    obtain ⟨bd, ic, nd, sr, ⟨p1⟩, ⟨p2⟩, w3, w4, dr⟩ := priv
    simp only at hr hd
    subst hr hd
    refine ⟨{ being_deleted := false, is_connected := ic, netdev := nd,
              scan_request := some request, scan_result := { pending := false },
              scan_complete := { pending := true }, connect := w3, disconnect := w4,
              disconnect_reason := dr },
            { being_deleted := false, is_connected := ic, netdev := nd,
              scan_request := none, scan_result := { pending := false },
              scan_complete := { pending := false }, connect := w3, disconnect := w4,
              disconnect_reason := dr }, ?_, rfl, rfl, rfl, ?_, rfl, rfl, rfl, ?_⟩
    · cases p1 <;> cases p2 <;>
        simp [virt_wifi_scan, run_delayed_work, outstanding, work_func, clear_pending,
          virt_wifi_scan_result, schedule_delayed_work]
    · simp [run_delayed_work, outstanding, work_func, clear_pending, virt_wifi_scan_complete]
    · intro request2
      simp [virt_wifi_scan, schedule_delayed_work]
  · intro netdev steps s calls h
    obtain ⟨b1, b2, b3, b4⟩ :=
      run_steps_scan_balance env steps (virt_wireless_dev netdev) s calls rfl h
    simp only [virt_wireless_dev, Bool.toNat_false, Nat.add_zero] at b2 b4
    refine ⟨b2, b3, b4, ?_⟩
    intro hn
    obtain ⟨bd, ic, nd, sr, ⟨p1⟩, ⟨p2⟩, w3, w4, dr⟩ := s
    simp only at hn
    subst hn
    cases p1 <;> cases p2 <;> simp_all [scan_consistent]

/-- C5, at a fresh adapter with request 5, clock readings 1000 and 2000. -/
theorem scan_cycle_one_pair_witness :
    ∃ s2 s3 : virt_wifi_priv,
      run_delayed_work env0 1000 .scan_result (virt_wifi_scan env0 fresh 5).2.1 =
        some (s2,
          [.cfg80211_inform_bss_data channel_5ghz NL80211_BSS_CHAN_WIDTH_20 (-60) 1000
              .CFG80211_BSS_FTYPE_PRESP env0.fake_router_bssid 1000 WLAN_CAPABILITY_ESS 0 ssid_ie,
           .cfg80211_put_bss,
           .cfg80211_inform_bss_data channel_5ghz NL80211_BSS_CHAN_WIDTH_20 (-60) 1000
              .CFG80211_BSS_FTYPE_BEACON env0.fake_router_bssid 1000 WLAN_CAPABILITY_ESS 0 ssid_ie,
           .cfg80211_put_bss,
           .schedule_delayed_work .scan_complete (env0.HZ * 2) (!fresh.scan_complete.pending)]) ∧
      s2.scan_request = some 5 ∧
      s2.scan_result.pending = false ∧
      s2.scan_complete.pending = true ∧
      run_delayed_work env0 2000 .scan_complete s2 =
        some (s3, [.cfg80211_scan_done (some 5) false]) ∧
      s3.scan_request = none ∧
      s3.scan_result.pending = false ∧
      s3.scan_complete.pending = false ∧
      (∀ request2 : Nat, (virt_wifi_scan env0 s3 request2).1 = 0) :=
  (scan_cycle_one_pair env0 fresh 5 1000 2000).1 (by decide)

/-! ## Disconnect requests -/

/-- C6 fails as stated: on a fresh adapter the first disconnect request is
accepted, the second one, issued before the completion fired, is rejected
with `-EBUSY`; the single completion fires once and nothing is left to fire
after it. -/
theorem second_disconnect_is_rejected :
    fresh.being_deleted = false ∧
    (virt_wifi_disconnect env0 fresh 3).1 = 0 ∧
    (virt_wifi_disconnect env0 (virt_wifi_disconnect env0 fresh 3).2.1 4).1 = -EBUSY ∧
    run_delayed_work env0 0 .disconnect
        (virt_wifi_disconnect env0 (virt_wifi_disconnect env0 fresh 3).2.1 4).2.1 =
      some ({ fresh with disconnect_reason := 3 }, [.cfg80211_disconnected 7 3 true]) ∧
    run_delayed_work env0 0 .disconnect { fresh with disconnect_reason := 3 } = none := by
  decide

/-- C6, amended: for an adapter that is not tearing down, of two disconnect
requests issued in succession with no completion firing in between, the
first succeeds exactly when no disconnect completion is outstanding, and the
second is rejected with `-EBUSY` and changes nothing (the reason captured
before is kept). One completion is outstanding afterwards: it fires, emits
one locally generated disconnected event carrying the kept reason, leaves
`is_connected` false, and no second completion is left to fire. -/
theorem disconnect_twice (env : module_env) (priv : virt_wifi_priv) (r1 r2 now : Nat)
    (h : priv.being_deleted = false) :
    (virt_wifi_disconnect env priv r1).1 =
      (if priv.disconnect.pending = true then -EBUSY else 0) ∧
    (virt_wifi_disconnect env (virt_wifi_disconnect env priv r1).2.1 r2).1 = -EBUSY ∧
    (virt_wifi_disconnect env (virt_wifi_disconnect env priv r1).2.1 r2).2.1 =
      (virt_wifi_disconnect env priv r1).2.1 ∧
    (virt_wifi_disconnect env priv r1).2.1.disconnect_reason =
      (if priv.disconnect.pending = true then priv.disconnect_reason else r1) ∧
    ∃ s : virt_wifi_priv,
      run_delayed_work env now .disconnect
          (virt_wifi_disconnect env (virt_wifi_disconnect env priv r1).2.1 r2).2.1 =
        some (s, [.cfg80211_disconnected priv.netdev
          (virt_wifi_disconnect env priv r1).2.1.disconnect_reason true]) ∧
      s.is_connected = false ∧
      run_delayed_work env now .disconnect s = none := by
  obtain ⟨bd, ic, nd, sr, w1, w2, w3, ⟨p4⟩, dr⟩ := priv
  simp only at h
  subst h
  cases p4 <;>
    simp [virt_wifi_disconnect, schedule_delayed_work, run_delayed_work, outstanding,
      work_func, clear_pending, virt_wifi_disconnect_complete, EBUSY]

/-- C6 amended, at a fresh adapter with reasons 3 and 4. -/
theorem disconnect_twice_witness :
    (virt_wifi_disconnect env0 fresh 3).1 =
      (if fresh.disconnect.pending = true then -EBUSY else 0) ∧
    (virt_wifi_disconnect env0 (virt_wifi_disconnect env0 fresh 3).2.1 4).1 = -EBUSY ∧
    (virt_wifi_disconnect env0 (virt_wifi_disconnect env0 fresh 3).2.1 4).2.1 =
      (virt_wifi_disconnect env0 fresh 3).2.1 ∧
    (virt_wifi_disconnect env0 fresh 3).2.1.disconnect_reason =
      (if fresh.disconnect.pending = true then fresh.disconnect_reason else 3) ∧
    ∃ s : virt_wifi_priv,
      run_delayed_work env0 0 .disconnect
          (virt_wifi_disconnect env0 (virt_wifi_disconnect env0 fresh 3).2.1 4).2.1 =
        some (s, [.cfg80211_disconnected fresh.netdev
          (virt_wifi_disconnect env0 fresh 3).2.1.disconnect_reason true]) ∧
      s.is_connected = false ∧
      run_delayed_work env0 0 .disconnect s = none :=
  disconnect_twice env0 fresh 3 4 0 (by decide)

/-! ## Teardown -/

/-- What a flush produces, by whether the slot is outstanding. -/
theorem flush_delayed_work_eq (env : module_env) (now : Nat) (k : work_kind)
    (priv : virt_wifi_priv) :
    flush_delayed_work env now k priv =
      if outstanding priv k = true then work_func env now k (clear_pending k priv)
      else (priv, []) := by
  unfold flush_delayed_work run_delayed_work
  split <;> simp_all

/-- C7: whatever combination of deferred actions is outstanding,
`free_netdev_and_wiphy` on a live wireless device hands the adapter state to
`wiphy_free` with `being_deleted` set and no deferred action of any kind
outstanding, so nothing can fire afterwards. Its host calls are, in order:
the flush of the registration work; the two reports and the arming of
scan-complete if scan-result was outstanding; the scan-done report if
scan-result or scan-complete was outstanding; the connect result if connect
was outstanding; the disconnected event if disconnect was outstanding; and
only then `wiphy_unregister` (if registered), `wiphy_free`, `kfree` and
`free_netdev`. -/
theorem free_netdev_and_wiphy_quiesces (env : module_env) (now : Nat)
    (w_priv : virt_wifi_priv) (registered : Bool) :
    ∃ final : virt_wifi_priv,
      free_netdev_and_wiphy env now (.valid w_priv registered) =
        (some final,
          [.flush_work_register_wiphy] ++
            (if w_priv.scan_result.pending = true then
              [.cfg80211_inform_bss_data channel_5ghz NL80211_BSS_CHAN_WIDTH_20 (-60) now
                  .CFG80211_BSS_FTYPE_PRESP env.fake_router_bssid now WLAN_CAPABILITY_ESS 0
                  ssid_ie,
               .cfg80211_put_bss,
               .cfg80211_inform_bss_data channel_5ghz NL80211_BSS_CHAN_WIDTH_20 (-60) now
                  .CFG80211_BSS_FTYPE_BEACON env.fake_router_bssid now WLAN_CAPABILITY_ESS 0
                  ssid_ie,
               .cfg80211_put_bss,
               .schedule_delayed_work .scan_complete (env.HZ * 2)
                  (!w_priv.scan_complete.pending)]
             else []) ++
            (if w_priv.scan_result.pending = true ∨ w_priv.scan_complete.pending = true then
              [.cfg80211_scan_done w_priv.scan_request false]
             else []) ++
            (if w_priv.connect.pending = true then
              [.cfg80211_connect_result w_priv.netdev env.fake_router_bssid 0]
             else []) ++
            (if w_priv.disconnect.pending = true then
              [.cfg80211_disconnected w_priv.netdev w_priv.disconnect_reason true]
             else []) ++
            (if registered = true then [.wiphy_unregister] else []) ++
            [.wiphy_free, .kfree_wdev, .free_netdev]) ∧
      final.being_deleted = true ∧
      quiescent final = true ∧
      (∀ k : work_kind, outstanding final k = false) ∧
      (∀ (k : work_kind) (now2 : Nat), run_delayed_work env now2 k final = none) := by
  obtain ⟨bd, ic, nd, sr, ⟨p1⟩, ⟨p2⟩, ⟨p3⟩, ⟨p4⟩, dr⟩ := w_priv
  refine ⟨{ being_deleted := true
            is_connected := if p4 = true then false else if p3 = true then true else ic
            netdev := nd
            scan_request := if p1 = true ∨ p2 = true then none else sr
            scan_result := { pending := false }
            scan_complete := { pending := false }
            connect := { pending := false }
            disconnect := { pending := false }
            disconnect_reason := dr }, ?_, rfl, rfl, ?_, ?_⟩
  · cases p1 <;> cases p2 <;> cases p3 <;> cases p4 <;> cases registered <;>
      simp [free_netdev_and_wiphy, flush_delayed_work_eq, outstanding, work_func,
        clear_pending, virt_wifi_scan_result, virt_wifi_scan_complete,
        virt_wifi_connect_complete, virt_wifi_disconnect_complete, schedule_delayed_work]
  · intro k
    cases k <;> rfl
  · intro k now2
    cases k <;> simp [run_delayed_work, outstanding]

/-! ## Steps taken while teardown is underway -/

/-- C8 fails as stated: with `being_deleted` already set and scan-complete not
outstanding, the scan-result action firing queues the scan-complete action;
`free_netdev_and_wiphy` itself takes this path when a scan is in flight. -/
theorem scan_result_arms_scan_complete_in_teardown :
    tearing_down_after_scan.being_deleted = true ∧
    outstanding tearing_down_after_scan .scan_complete = false ∧
    (step.apply env0 tearing_down_after_scan (.fire .scan_result 1000)).map
        (fun r => (outstanding r.1 .scan_complete, r.2.any host_call.queues)) =
      some (true, true) ∧
    host_call.schedule_delayed_work .scan_complete 200 true ∈
      (free_netdev_and_wiphy env0 1000 (.valid (virt_wifi_scan env0 fresh 5).2.1 true)).2 := by
  decide

/-- C8, amended: once `being_deleted` is set it stays set, and no control
request and no firing scan-complete, connect or disconnect action queues a
deferred action or makes a slot outstanding that was not. A firing
scan-result action still schedules the scan-complete action: whenever the
scan-result slot is outstanding it fires, makes its two reports and calls
`schedule_delayed_work` on the scan-complete slot, which queues it unless it
is already outstanding and leaves it outstanding either way; that is the only
call of any step that queues anything, and scan-complete the only slot that
can become outstanding. -/
theorem no_new_work_in_teardown (env : module_env) (priv s : virt_wifi_priv) (st : step)
    (calls : List host_call) (hd : priv.being_deleted = true)
    (h : step.apply env priv st = some (s, calls)) :
    s.being_deleted = true ∧
    ((∀ now, st ≠ .fire .scan_result now) →
      calls.any host_call.queues = false ∧
      ∀ k, outstanding s k = true → outstanding priv k = true) ∧
    (∀ c ∈ calls, c.queues = true →
      c = .schedule_delayed_work .scan_complete (env.HZ * 2) true) ∧
    (∀ k, outstanding s k = true → outstanding priv k = true ∨ k = .scan_complete) ∧
    (∀ now : Nat, priv.scan_result.pending = true →
      step.apply env priv (.fire .scan_result now) =
        some ({ priv with scan_result := { pending := false },
                          scan_complete := { pending := true } },
          [.cfg80211_inform_bss_data channel_5ghz NL80211_BSS_CHAN_WIDTH_20 (-60) now
              .CFG80211_BSS_FTYPE_PRESP env.fake_router_bssid now WLAN_CAPABILITY_ESS 0
              ssid_ie,
           .cfg80211_put_bss,
           .cfg80211_inform_bss_data channel_5ghz NL80211_BSS_CHAN_WIDTH_20 (-60) now
              .CFG80211_BSS_FTYPE_BEACON env.fake_router_bssid now WLAN_CAPABILITY_ESS 0
              ssid_ie,
           .cfg80211_put_bss,
           .schedule_delayed_work .scan_complete (env.HZ * 2)
              (!priv.scan_complete.pending)]) ∧
      ∀ s1 calls1, step.apply env priv (.fire .scan_result now) = some (s1, calls1) →
        s1.being_deleted = true ∧
        outstanding s1 .scan_complete = true ∧
        host_call.schedule_delayed_work .scan_complete (env.HZ * 2)
          (!priv.scan_complete.pending) ∈ calls1 ∧
        calls1.any host_call.queues = !priv.scan_complete.pending) := by
  have pos : ∀ now : Nat, priv.scan_result.pending = true →
      step.apply env priv (.fire .scan_result now) =
        some ({ priv with scan_result := { pending := false },
                          scan_complete := { pending := true } },
          [.cfg80211_inform_bss_data channel_5ghz NL80211_BSS_CHAN_WIDTH_20 (-60) now
              .CFG80211_BSS_FTYPE_PRESP env.fake_router_bssid now WLAN_CAPABILITY_ESS 0
              ssid_ie,
           .cfg80211_put_bss,
           .cfg80211_inform_bss_data channel_5ghz NL80211_BSS_CHAN_WIDTH_20 (-60) now
              .CFG80211_BSS_FTYPE_BEACON env.fake_router_bssid now WLAN_CAPABILITY_ESS 0
              ssid_ie,
           .cfg80211_put_bss,
           .schedule_delayed_work .scan_complete (env.HZ * 2)
              (!priv.scan_complete.pending)]) := by
    intro now hp
    obtain ⟨bd, ic, nd, sr, ⟨p1⟩, ⟨p2⟩, w3, w4, dr⟩ := priv
    simp only at hp
    subst hp
    cases p2 <;>
      simp [step.apply, run_delayed_work, outstanding, work_func, clear_pending,
        virt_wifi_scan_result, schedule_delayed_work]
  have old : s.being_deleted = true ∧
      ((∀ now, st ≠ .fire .scan_result now) →
        calls.any host_call.queues = false ∧
        ∀ k, outstanding s k = true → outstanding priv k = true) ∧
      (∀ c ∈ calls, c.queues = true →
        c = .schedule_delayed_work .scan_complete (env.HZ * 2) true) ∧
      (∀ k, outstanding s k = true → outstanding priv k = true ∨ k = .scan_complete) := by
    clear pos
    obtain ⟨bd, ic, nd, sr, ⟨p1⟩, ⟨p2⟩, ⟨p3⟩, ⟨p4⟩, dr⟩ := priv
    simp only at hd
    subst hd
    cases st with
    | scan request =>
      simp only [step.apply, Option.some.injEq] at h
      have h1 : s = (virt_wifi_scan env ⟨true, ic, nd, sr, ⟨p1⟩, ⟨p2⟩, ⟨p3⟩, ⟨p4⟩, dr⟩ request).2.1 := by
        rw [h]
      have h2 : calls = (virt_wifi_scan env ⟨true, ic, nd, sr, ⟨p1⟩, ⟨p2⟩, ⟨p3⟩, ⟨p4⟩, dr⟩ request).2.2 := by
        rw [h]
      subst h1 h2
      simp [virt_wifi_scan]
      exact fun k hk => Or.inl hk
    | connect b =>
      simp only [step.apply, Option.some.injEq] at h
      have h1 : s = (virt_wifi_connect env ⟨true, ic, nd, sr, ⟨p1⟩, ⟨p2⟩, ⟨p3⟩, ⟨p4⟩, dr⟩ b).2.1 := by
        rw [h]
      have h2 : calls = (virt_wifi_connect env ⟨true, ic, nd, sr, ⟨p1⟩, ⟨p2⟩, ⟨p3⟩, ⟨p4⟩, dr⟩ b).2.2 := by
        rw [h]
      subst h1 h2
      simp [virt_wifi_connect]
      exact fun k hk => Or.inl hk
    | disconnect r =>
      simp only [step.apply, Option.some.injEq] at h
      have h1 : s = (virt_wifi_disconnect env ⟨true, ic, nd, sr, ⟨p1⟩, ⟨p2⟩, ⟨p3⟩, ⟨p4⟩, dr⟩ r).2.1 := by
        rw [h]
      have h2 : calls = (virt_wifi_disconnect env ⟨true, ic, nd, sr, ⟨p1⟩, ⟨p2⟩, ⟨p3⟩, ⟨p4⟩, dr⟩ r).2.2 := by
        rw [h]
      subst h1 h2
      simp [virt_wifi_disconnect]
      exact fun k hk => Or.inl hk
    | fire k now =>
      obtain ⟨hp, h1, h2⟩ := run_delayed_work_eq env now k _ s calls h
      subst h1 h2
      cases k with
      | scan_result =>
        refine ⟨rfl, fun hne => absurd rfl (hne now), ?_, ?_⟩
        · cases p2 <;>
            simp [work_func, virt_wifi_scan_result, clear_pending, schedule_delayed_work,
              host_call.queues]
        · intro k
          cases k <;> cases p2 <;>
            simp [work_func, virt_wifi_scan_result, clear_pending, schedule_delayed_work,
              outstanding]
      | scan_complete =>
        refine ⟨rfl, fun _ => ⟨rfl, ?_⟩, ?_, ?_⟩
        · intro k
          cases k <;> simp [work_func, virt_wifi_scan_complete, clear_pending, outstanding]
        · simp [work_func, virt_wifi_scan_complete, host_call.queues]
        · intro k
          cases k <;> simp [work_func, virt_wifi_scan_complete, clear_pending, outstanding]
      | connect =>
        refine ⟨rfl, fun _ => ⟨rfl, ?_⟩, ?_, ?_⟩
        · intro k
          cases k <;> simp [work_func, virt_wifi_connect_complete, clear_pending, outstanding]
        · simp [work_func, virt_wifi_connect_complete, host_call.queues]
        · intro k
          cases k <;> simp [work_func, virt_wifi_connect_complete, clear_pending, outstanding]
      | disconnect =>
        refine ⟨rfl, fun _ => ⟨rfl, ?_⟩, ?_, ?_⟩
        · intro k
          cases k <;> simp [work_func, virt_wifi_disconnect_complete, clear_pending, outstanding]
        · simp [work_func, virt_wifi_disconnect_complete, host_call.queues]
        · intro k
          cases k <;> simp [work_func, virt_wifi_disconnect_complete, clear_pending, outstanding]
  refine ⟨old.1, old.2.1, old.2.2.1, old.2.2.2, ?_⟩
  intro now hp
  refine ⟨pos now hp, ?_⟩
  intro s1 calls1 h1
  rw [pos now hp] at h1
  simp only [Option.some.injEq, Prod.mk.injEq] at h1
  obtain ⟨e1, e2⟩ := h1
  subst e1 e2
  refine ⟨hd, rfl, ?_, ?_⟩
  · simp
  · cases priv.scan_complete.pending <;> simp [host_call.queues]

/-- C8 amended, at the adapter torn down after a scan: the scan-result action
fires with `being_deleted` staying set and arms scan-complete, and the
scan-complete action then fires without queueing anything or making any slot
outstanding. -/
theorem no_new_work_in_teardown_witness :
    ({ tearing_down_after_scan with
        scan_result := { pending := false },
        scan_complete := { pending := true } } : virt_wifi_priv).being_deleted = true ∧
    ([host_call.cfg80211_scan_done (some 5) false].any host_call.queues = false ∧
      ∀ k, outstanding { tearing_down_after_scan with
              scan_request := none, scan_result := { pending := false } } k = true →
        outstanding { tearing_down_after_scan with
              scan_result := { pending := false }, scan_complete := { pending := true } } k =
          true) ∧
    step.apply env0 tearing_down_after_scan (.fire .scan_result 1000) =
      some ({ tearing_down_after_scan with
                scan_result := { pending := false }, scan_complete := { pending := true } },
        [.cfg80211_inform_bss_data channel_5ghz NL80211_BSS_CHAN_WIDTH_20 (-60) 1000
            .CFG80211_BSS_FTYPE_PRESP env0.fake_router_bssid 1000 WLAN_CAPABILITY_ESS 0
            ssid_ie,
         .cfg80211_put_bss,
         .cfg80211_inform_bss_data channel_5ghz NL80211_BSS_CHAN_WIDTH_20 (-60) 1000
            .CFG80211_BSS_FTYPE_BEACON env0.fake_router_bssid 1000 WLAN_CAPABILITY_ESS 0
            ssid_ie,
         .cfg80211_put_bss,
         .schedule_delayed_work .scan_complete (env0.HZ * 2)
            (!tearing_down_after_scan.scan_complete.pending)]) :=
  ⟨(no_new_work_in_teardown env0 tearing_down_after_scan
      { tearing_down_after_scan with
          scan_result := { pending := false }, scan_complete := { pending := true } }
      (.fire .scan_result 1000) scan_result_calls (by decide) (by decide)).1,
   (no_new_work_in_teardown env0
      { tearing_down_after_scan with
          scan_result := { pending := false }, scan_complete := { pending := true } }
      { tearing_down_after_scan with
          scan_request := none, scan_result := { pending := false } }
      (.fire .scan_complete 0)
      [.cfg80211_scan_done (some 5) false]
      (by decide) (by decide)).2.1 (fun now hh => by cases hh),
   ((no_new_work_in_teardown env0 tearing_down_after_scan
      { tearing_down_after_scan with
          scan_result := { pending := false }, scan_complete := { pending := true } }
      (.fire .scan_result 1000) scan_result_calls (by decide) (by decide)).2.2.2.2
        1000 (by decide)).1⟩

/-! ## Rejected control requests -/

/-- C9: a control request that returns an error leaves the adapter state
exactly as it was (connection flag, stored scan request, teardown flag,
captured disconnect reason and every delayed-work slot) and queues
nothing. -/
theorem rejected_request_keeps_state (env : module_env) (priv : virt_wifi_priv) :
    (∀ request : Nat, (virt_wifi_scan env priv request).1 ≠ 0 →
      (virt_wifi_scan env priv request).2.1 = priv ∧
      (virt_wifi_scan env priv request).2.2.any host_call.queues = false) ∧
    (∀ bssid : Option mac_addr, (virt_wifi_connect env priv bssid).1 ≠ 0 →
      (virt_wifi_connect env priv bssid).2.1 = priv ∧
      (virt_wifi_connect env priv bssid).2.2.any host_call.queues = false) ∧
    (∀ reason_code : Nat, (virt_wifi_disconnect env priv reason_code).1 ≠ 0 →
      (virt_wifi_disconnect env priv reason_code).2.1 = priv ∧
      (virt_wifi_disconnect env priv reason_code).2.1.disconnect_reason =
        priv.disconnect_reason ∧
      (virt_wifi_disconnect env priv reason_code).2.2.any host_call.queues = false) := by
  obtain ⟨bd, ic, nd, sr, ⟨p1⟩, ⟨p2⟩, ⟨p3⟩, ⟨p4⟩, dr⟩ := priv
  refine ⟨?_, ?_, ?_⟩
  · intro request
    cases bd <;> cases sr <;> cases p1 <;>
      simp [virt_wifi_scan, schedule_delayed_work, host_call.queues]
  · intro bssid
    cases bd <;> cases p3 <;> cases bssid <;>
      simp [virt_wifi_connect, schedule_delayed_work, host_call.queues, ether_addr_equal]
    all_goals split <;> simp_all [host_call.queues]
  · intro reason_code
    cases bd <;> cases p4 <;>
      simp [virt_wifi_disconnect, schedule_delayed_work, host_call.queues]

/-- C9, at an adapter whose disconnect completion is outstanding: a second
disconnect request with reason 4 is rejected and reason 3 is kept. -/
theorem rejected_request_keeps_state_witness :
    (virt_wifi_disconnect env0 disconnecting 4).2.1 = disconnecting ∧
    (virt_wifi_disconnect env0 disconnecting 4).2.1.disconnect_reason =
      disconnecting.disconnect_reason ∧
    (virt_wifi_disconnect env0 disconnecting 4).2.2.any host_call.queues = false :=
  (rejected_request_keeps_state env0 disconnecting).2.2 4 (by decide)

/-! ## Station queries -/

/-- C10: asked about peer 3 while the fixed simulated peer is 2,
`virt_wifi_get_station` does not return `-ENOENT` but 0 with the fixed
snapshot. For every peer identity, the fixed one included, and without
reading the adapter state, it returns 0 with the snapshot (tx_packets 1,
tx_failed 0, signal -60, legacy bitrate 10), whereas `virt_wifi_dump_station`
knows of one station only, the fixed peer at index 0, and returns `-ENOENT`
for every other index. -/
theorem get_station_ignores_mac :
    (3 : mac_addr) ≠ env0.fake_router_bssid ∧
    (virt_wifi_get_station 3 sinfo0).1 = 0 ∧
    (virt_wifi_get_station 3 sinfo0).1 ≠ -ENOENT ∧
    (∀ (mac : mac_addr) (sinfo : station_info),
      (virt_wifi_get_station mac sinfo).1 = 0 ∧
      (virt_wifi_get_station mac sinfo).2.filled =
        [.NL80211_STA_INFO_TX_PACKETS, .NL80211_STA_INFO_TX_FAILED,
         .NL80211_STA_INFO_SIGNAL, .NL80211_STA_INFO_TX_BITRATE] ∧
      (virt_wifi_get_station mac sinfo).2.tx_packets = 1 ∧
      (virt_wifi_get_station mac sinfo).2.tx_failed = 0 ∧
      (virt_wifi_get_station mac sinfo).2.signal = -60 ∧
      (virt_wifi_get_station mac sinfo).2.txrate.legacy = 10) ∧
    (∀ (env : module_env) (idx : Int) (mac : mac_addr) (sinfo : station_info),
      ((virt_wifi_dump_station env idx mac sinfo).1 = -ENOENT ↔ idx ≠ 0) ∧
      (idx = 0 → (virt_wifi_dump_station env idx mac sinfo).2.1 = env.fake_router_bssid)) := by
  refine ⟨by decide, by decide, by decide, fun mac sinfo => ⟨rfl, rfl, rfl, rfl, rfl, rfl⟩, ?_⟩
  intro env idx mac sinfo
  by_cases h : idx = 0
  · subst h
    simp [virt_wifi_dump_station, virt_wifi_get_station, ENOENT]
  · simp [virt_wifi_dump_station, h]

end VirtWifi
